import Mathlib

/- Verification of the session-orchestration and memory-ingestion core of the
   elderly-companion voice-agent server.  The definitions below are shallow
   embeddings of the Python source files:
     - src/agents/companion_agent.py  (CompanionAgent)
     - src/agents/onboarding_agent.py (OnboardingAgent)
     - src/main.py                    (legacy Companion agent and entrypoint)
     - src/lib/n8n.py                 (workflow-automation client)
   Strings model Python strings; Option models Python None; side effects
   (memory ingestion, RPC dispatch, workflow deletion) are made explicit as
   data in the result structures. -/

/-- One chat turn as seen by the turn-completion hooks: a role tag
("user" / "assistant") and the text content of the utterance. -/
structure ChatMessage where
  role : String
  text_content : String

deriving instance DecidableEq for ChatMessage

/-- One entry of the list dispatched to the memory store by the Companion
agents (src/agents/companion_agent.py lines 90-95, src/main.py lines 276-281):
a content string and a role_type tag. -/
structure IngestEntry where
  content : String
  role_type : String

deriving instance DecidableEq for IngestEntry

/-- One entry of the list dispatched to the memory store by the onboarding
agent (src/agents/onboarding_agent.py lines 142-148): content, the fixed
role "family_member", and a role_type tag. -/
structure FamilyIngestEntry where
  content : String
  role : String
  role_type : String

deriving instance DecidableEq for FamilyIngestEntry

/-- Result of one call to an on_user_turn_completed hook: the value the
Python function returns (none models Python None, i.e. falling off the end
of the function), and the payload handed to the memory store when ingestion
fired (none when no ingestion was dispatched). -/
structure TurnOutcome (α : Type) where
  returned : Option ChatMessage
  ingested : Option (List α)

deriving instance DecidableEq for TurnOutcome

/-- Python truthiness of the session_id field (`if not self.session_id`):
None and the empty string are falsy, every other string is truthy. -/
def pyTruthy : Option String → Bool
  | none => false
  | some s => s != ""

/-- Embedding of the ingestion-entry construction inside
CompanionAgent.on_user_turn_completed (src/agents/companion_agent.py lines
83-95): role_type is "user" exactly when the message role is "user"; a
user-authored entry is prefixed with the caller name (falling back to
"Unknown Caller" when the name is falsy) and ": ", an assistant entry keeps
the raw text. -/
def CompanionAgent.ingestEntry (userName : String) (m : ChatMessage) : IngestEntry :=
  let role_type := if m.role = "user" then "user" else "assistant"
  let content :=
    if role_type = "user" then
      (if userName = "" then "Unknown Caller" else userName) ++ ": " ++ m.text_content
    else m.text_content
  ⟨content, role_type⟩

/-- Embedding of CompanionAgent.on_user_turn_completed
(src/agents/companion_agent.py lines 66-100).  The arguments are the
agent state (session_id, the user name self.user["name"]) and the hook
arguments (turn_ctx.items, new_message).  The hook returns new_message on
every path; ingestion is dispatched only when session_id is truthy, the new
message has role "user", turn_ctx.items has at least two entries, and its
last entry (messages[-1]) has role "assistant". -/
def CompanionAgent.on_user_turn_completed (session_id : Option String)
    (userName : String) (items : List ChatMessage) (new_message : ChatMessage) :
    TurnOutcome IngestEntry :=
  if pyTruthy session_id = false then ⟨some new_message, none⟩
  else
    match (if 2 ≤ items.length then items.getLast? else none) with
    | some second_to_last =>
      if new_message.role = "user" ∧ second_to_last.role = "assistant" then
        ⟨some new_message,
         some [CompanionAgent.ingestEntry userName new_message,
               CompanionAgent.ingestEntry userName second_to_last]⟩
      else ⟨some new_message, none⟩
    | none => ⟨some new_message, none⟩

/-- Embedding of the ingestion-entry construction inside the legacy
Companion.on_user_turn_completed (src/main.py lines 272-281): the content is
the raw text of the message with no speaker prefixing, tagged with a
role_type. -/
def Companion.ingestEntry (m : ChatMessage) : IngestEntry :=
  ⟨m.text_content, if m.role = "user" then "user" else "assistant"⟩

/-- Embedding of the legacy Companion.on_user_turn_completed (src/main.py
lines 255-286).  Identical trigger logic to CompanionAgent, but the
dispatched entries carry no speaker prefix. -/
def Companion.on_user_turn_completed (session_id : Option String)
    (items : List ChatMessage) (new_message : ChatMessage) :
    TurnOutcome IngestEntry :=
  if pyTruthy session_id = false then ⟨some new_message, none⟩
  else
    match (if 2 ≤ items.length then items.getLast? else none) with
    | some second_to_last =>
      if new_message.role = "user" ∧ second_to_last.role = "assistant" then
        ⟨some new_message,
         some [Companion.ingestEntry new_message,
               Companion.ingestEntry second_to_last]⟩
      else ⟨some new_message, none⟩
    | none => ⟨some new_message, none⟩

/-- Embedding of the ingestion-entry construction inside
OnboardingAgent.on_user_turn_completed (src/agents/onboarding_agent.py lines
133-148): like CompanionAgent.ingestEntry but with the additional fixed
role "family_member". -/
def OnboardingAgent.ingestEntry (userName : String) (m : ChatMessage) :
    FamilyIngestEntry :=
  let role_type := if m.role = "user" then "user" else "assistant"
  let content :=
    if role_type = "user" then
      (if userName = "" then "Unknown Caller" else userName) ++ ": " ++ m.text_content
    else m.text_content
  ⟨content, "family_member", role_type⟩

/-- Embedding of OnboardingAgent.on_user_turn_completed
(src/agents/onboarding_agent.py lines 116-165; the variant in src/main.py
lines 109-152 places its return statement identically).  The final
`return new_message` sits inside the if-block that guards ingestion, so
when session_id is truthy and the trigger condition fails the Python
function falls off the end and returns None: that path yields
returned = none. -/
def OnboardingAgent.on_user_turn_completed (session_id : Option String)
    (userName : String) (items : List ChatMessage) (new_message : ChatMessage) :
    TurnOutcome FamilyIngestEntry :=
  if pyTruthy session_id = false then ⟨some new_message, none⟩
  else
    match (if 2 ≤ items.length then items.getLast? else none) with
    | some second_to_last =>
      if new_message.role = "user" ∧ second_to_last.role = "assistant" then
        ⟨some new_message,
         some [OnboardingAgent.ingestEntry userName new_message,
               OnboardingAgent.ingestEntry userName second_to_last]⟩
      else ⟨none, none⟩
    | none => ⟨none, none⟩

/-- Python substring containment on char lists (`needle in haystack` for
str operands): true when needle occurs contiguously inside haystack; the
empty needle is contained in everything. -/
def hasInfix (needle : List Char) : List Char → Bool
  | [] => needle.isEmpty
  | c :: rest => needle.isPrefixOf (c :: rest) || hasInfix needle rest

/-- Python `needle in haystack` for strings, via the char-list model. -/
def strContains (haystack needle : String) : Bool :=
  hasInfix needle.data haystack.data

/-- Python `s.startswith(p)`, via the char-list model. -/
def pyStartsWith (s p : String) : Bool :=
  p.data.isPrefixOf s.data

/-- One n8n workflow node as consumed by get_user_workflows
(src/lib/n8n.py lines 49-55).  The code reads node["parameters"] when the
key is present and serializes it with json.dumps before searching; the
embedding carries that serialized parameter string directly (none models a
node without a "parameters" key). -/
structure WorkflowNode where
  parameters : Option String

deriving instance DecidableEq for WorkflowNode

/-- One n8n workflow as consumed by get_user_workflows and
delete_scheduled_task: its opaque id and its node list. -/
structure Workflow where
  id : String
  nodes : List WorkflowNode

deriving instance DecidableEq for Workflow

/-- Embedding of the per-node check inside get_user_workflows
(src/lib/n8n.py lines 49-53): a node matches when it has a "parameters"
key and the serialized parameters contain the user id as a substring. -/
def nodeMatchesUser (user_id : String) (node : WorkflowNode) : Bool :=
  match node.parameters with
  | some params => strContains params user_id
  | none => false

/-- Embedding of get_user_workflows (src/lib/n8n.py lines 19-57) applied to
the workflow collection returned by the service: the loop appends a
workflow the first time one of its nodes matches and then breaks, which is
exactly a filter by "some node matches". -/
def get_user_workflows (user_id : String) (workflows : List Workflow) :
    List Workflow :=
  workflows.filter (fun w => w.nodes.any (nodeMatchesUser user_id))

/-- Result of one delete_scheduled_task tool call: the user-facing message
and the list of workflow ids for which delete_scheduled_workflow was
invoked. -/
structure DeleteOutcome where
  message : String
  deleted : List String

deriving instance DecidableEq for DeleteOutcome

/-- The "not found" refusal message of delete_scheduled_task
(src/agents/companion_agent.py line 523, src/main.py line 588). -/
def notFoundMessage : String :=
  "I couldn\x27t find that scheduled task. Please make sure you\x27re trying to delete one of your own tasks."

/-- The success message of delete_scheduled_task
(src/agents/companion_agent.py line 529, src/main.py line 596). -/
def deleteSuccessMessage : String :=
  "I\x27ve successfully deleted the scheduled task."

/-- Embedding of CompanionAgent.delete_scheduled_task
(src/agents/companion_agent.py lines 497-533; src/main.py lines 556-600 is
identical): re-run get_user_workflows for the caller, collect the ids of
the filtered list, refuse with the not-found message (issuing no delete
call) when the target id is absent, and otherwise issue exactly one delete
call for the target id. -/
def delete_scheduled_task (participant_identity : String)
    (workflows : List Workflow) (workflow_id : String) : DeleteOutcome :=
  let user_workflows := get_user_workflows participant_identity workflows
  let workflow_ids := user_workflows.map Workflow.id
  if workflow_id ∉ workflow_ids then ⟨notFoundMessage, []⟩
  else ⟨deleteSuccessMessage, [workflow_id]⟩

/-- Result of one web_search tool call on the successful-response path: the
payloads forwarded to the client through the "web_search" RPC and the
string the tool returns. -/
structure WebSearchOutcome where
  rpcPayloads : List String
  returned : String

deriving instance DecidableEq for WebSearchOutcome

/-- Embedding of the dispatch tail of CompanionAgent.web_search
(src/agents/companion_agent.py lines 306-325) on the successful-search
path: json_data is the serialized search response and rpcResult the value a
client RPC would yield.  A participant identity starting with "sip_" gets
json_data back directly with no RPC; any other identity gets the RPC result
after the payload is forwarded. -/
def CompanionAgent.web_search (participant_identity : String)
    (json_data : String) (rpcResult : String) : WebSearchOutcome :=
  if pyStartsWith participant_identity "sip_" = true then ⟨[], json_data⟩
  else ⟨[json_data], rpcResult⟩

/-- Embedding of the dispatch tail of the legacy Companion.web_search
(src/main.py lines 348-361) on the successful-search path: the payload is
always forwarded through the "web_search" RPC and the RPC result returned;
there is no telephony branch. -/
def Companion.web_search (participant_identity : String)
    (json_data : String) (rpcResult : String) : WebSearchOutcome :=
  ⟨[json_data], rpcResult⟩

/-- A resolved subject: the primary user record a conversation is anchored
to, reduced to the fields the claims mention (id and display name). -/
structure Subject where
  id : String
  name : String

deriving instance DecidableEq for Subject

/-- Modelled from the spec: the identity-resolution step of the current
entrypoint, which is not under src/ (src/main.py lines 603-734 hold a
legacy entrypoint without it; the spec, sections 4.2 and 7, describes the
current behaviour).  The directory lookup outcome is passed in as an
Except value.  For a telephony-prefixed identifier a lookup failure
degrades to a synthetic unknown-caller subject whose id is the raw
identifier; for a non-telephony identifier the lookup failure propagates
and is fatal to session start. -/
def resolveIdentity (identifier : String) (lookup : Except String Subject) :
    Except String Subject :=
  if pyStartsWith identifier "sip_" = true then
    match lookup with
    | Except.ok s => Except.ok s
    | Except.error _ => Except.ok ⟨identifier, "Unknown Caller"⟩
  else lookup

/-- Modelled from the spec: the memory-store session-creation step of the
current entrypoint, which is not under src/ (src/main.py lines 664-672
hold the legacy, unguarded call; the spec, sections 4.3 and 7, describes
the current behaviour).  The creation outcome is passed in as an Except
value; a failure degrades to a null session identifier instead of
propagating. -/
def resolveSessionId (creation : Except String String) : Option String :=
  match creation with
  | Except.ok sid => some sid
  | Except.error _ => none

/-- Modelled from the spec: session start after the session-creation step
(spec sections 4.3 and 7) — start continues with whatever session id the
creation step degraded to, never failing because of it. -/
def sessionStartAfterCreation (creation : Except String String) :
    Except String (Option String) :=
  Except.ok (resolveSessionId creation)

/-- C1 counterexample: with a truthy session id, the prior-turns sequence
[assistant:"Hi"] and a new user turn "Hello", the claim says ingestion
fires with the pair [user:"Hello", assistant:"Hi"]; the code requires the
prior sequence to have at least two entries (len(messages) >= 2), so no
ingestion is dispatched. -/
theorem companion_single_prior_turn_no_ingestion :
    (CompanionAgent.on_user_turn_completed (some "s4") "Alice"
        [⟨"assistant", "Hi"⟩] ⟨"user", "Hello"⟩).ingested = none ∧
    pyTruthy (some "s4") = true := by
  exact ⟨rfl, rfl⟩

/-- C1 (amended): for a truthy session id, CompanionAgent.on_user_turn_completed
dispatches ingestion iff the new message has role "user", the prior-turns
sequence has at least two entries, and its last entry has role
"assistant". -/
theorem companion_ingestion_trigger (sid userName : String) (h : sid ≠ "")
    (items : List ChatMessage) (m : ChatMessage) :
    (CompanionAgent.on_user_turn_completed (some sid) userName items m).ingested ≠ none ↔
      (m.role = "user" ∧ 2 ≤ items.length ∧
        items.getLast?.map ChatMessage.role = some "assistant") := by
  have hs : pyTruthy (some sid) = true := by
    simp [pyTruthy, h]
  by_cases hl : 2 ≤ items.length
  · cases hgl : items.getLast? with
    | none =>
      have : items = [] := by
        cases items with
        | nil => rfl
        | cons a t => simp [List.getLast?] at hgl
      subst this
      simp at hl
    | some prev =>
      by_cases hc : m.role = "user" ∧ prev.role = "assistant"
      · simp [CompanionAgent.on_user_turn_completed, hs, hl, hgl, hc.1, hc.2]
      · have hnone :
            (CompanionAgent.on_user_turn_completed (some sid) userName items m).ingested
              = none := by
          simp [CompanionAgent.on_user_turn_completed, hs, hl, hgl, if_neg hc]
        rw [hnone]
        simp only [ne_eq, not_true_eq_false, false_iff]
        intro hcon
        exact hc ⟨hcon.1, by simpa using hcon.2.2⟩
  · simp [CompanionAgent.on_user_turn_completed, hs, hl]

/-- C1 witness: the amended trigger condition applied at a concrete input
with two prior turns ending in an assistant turn. -/
theorem companion_ingestion_trigger_witness :
    ("s5" ≠ "") ∧
    (CompanionAgent.on_user_turn_completed (some "s5") "Ann"
        [⟨"user", "x"⟩, ⟨"assistant", "Hoi"⟩] ⟨"user", "Yo"⟩).ingested ≠ none := by
  refine ⟨by decide, ?_⟩
  exact (companion_ingestion_trigger "s5" "Ann" (by decide)
    [⟨"user", "x"⟩, ⟨"assistant", "Hoi"⟩] ⟨"user", "Yo"⟩).mpr
    ⟨rfl, by decide, by decide⟩

/-- C5: evaluation of the hooks at the failing input: with a truthy session
id, an empty prior-turns sequence and a new user message, the onboarding
hook falls off the end of the Python function and returns None, while the
CompanionAgent hook returns the new message unchanged on the same input. -/
theorem onboarding_hook_returns_none :
    (OnboardingAgent.on_user_turn_completed (some "s3") "Eva" []
        ⟨"user", "Hallo"⟩).returned = none ∧
    (CompanionAgent.on_user_turn_completed (some "s3") "Eva" []
        ⟨"user", "Hallo"⟩).returned = some ⟨"user", "Hallo"⟩ := by
  exact ⟨rfl, rfl⟩

/-- C6 counterexample: when the legacy Companion agent (src/main.py) fires
ingestion, the user-authored entry is the raw text "Hallo" with no
"speaker: content" prefix (it does not even contain the ": " separator),
contradicting the claim that every dispatched user entry carries one. -/
theorem companion_payload_lacks_speaker_tag :
    (Companion.on_user_turn_completed (some "s2")
        [⟨"user", "eerder"⟩, ⟨"assistant", "Hoi"⟩] ⟨"user", "Hallo"⟩).ingested =
      some [⟨"Hallo", "user"⟩, ⟨"Hoi", "assistant"⟩] ∧
    strContains "Hallo" ": " = false := by
  exact ⟨rfl, rfl⟩

/-- C6 (amended): whenever ingestion fires, CompanionAgent dispatches the
ordered pair [newest user turn, preceding assistant turn] with role_type
tags, the user entry prefixed with the caller name (falling back to
"Unknown Caller" when the name is empty) and the assistant entry
unprefixed; the legacy Companion agent dispatches the same ordered tagged
pair but with raw contents and no speaker prefix. -/
theorem companionagent_payload_shape (sid userName : String) (h : sid ≠ "")
    (items : List ChatMessage) (m prev : ChatMessage)
    (hlen : 2 ≤ items.length) (hlast : items.getLast? = some prev)
    (hm : m.role = "user") (hp : prev.role = "assistant") :
    (CompanionAgent.on_user_turn_completed (some sid) userName items m).ingested =
      some [⟨(if userName = "" then "Unknown Caller" else userName) ++ ": " ++
              m.text_content, "user"⟩,
            ⟨prev.text_content, "assistant"⟩] ∧
    (Companion.on_user_turn_completed (some sid) items m).ingested =
      some [⟨m.text_content, "user"⟩, ⟨prev.text_content, "assistant"⟩] := by
  have hs : pyTruthy (some sid) = true := by simp [pyTruthy, h]
  constructor
  · simp [CompanionAgent.on_user_turn_completed, hs, hlen, hlast, hm, hp,
      CompanionAgent.ingestEntry]
  · simp [Companion.on_user_turn_completed, hs, hlen, hlast, hm, hp,
      Companion.ingestEntry]

/-- C6 witness: the amended payload shape applied at a concrete firing
input whose caller name is empty, showing the "Unknown Caller" fallback. -/
theorem companionagent_payload_shape_witness :
    (CompanionAgent.on_user_turn_completed (some "s1") ""
        [⟨"user", "a"⟩, ⟨"assistant", "Hoi"⟩] ⟨"user", "Dag"⟩).ingested =
      some [⟨"Unknown Caller: Dag", "user"⟩, ⟨"Hoi", "assistant"⟩] := by
  have h := companionagent_payload_shape "s1" "" (by decide)
    [⟨"user", "a"⟩, ⟨"assistant", "Hoi"⟩] ⟨"user", "Dag"⟩ ⟨"assistant", "Hoi"⟩
    (by decide) (by decide) (by decide) (by decide)
  simpa using h.1

/-- C2: for every telephony-prefixed identifier, a failing directory lookup
resolves to a synthetic subject whose id is the raw identifier and whose
placeholder name is non-empty, and identity resolution succeeds (so session
start proceeds) instead of propagating the failure. -/
theorem telephony_lookup_failure_degrades (identifier e : String)
    (h : pyStartsWith identifier "sip_" = true) :
    ∃ s : Subject, resolveIdentity identifier (Except.error e) = Except.ok s ∧
      s.id = identifier ∧ s.name ≠ "" := by
  refine ⟨⟨identifier, "Unknown Caller"⟩, ?_, rfl, ?_⟩
  · simp [resolveIdentity, h]
  · show ("Unknown Caller" : String) ≠ ""
    decide

/-- C2 witness: degraded resolution at a concrete telephony identifier and
a concrete lookup failure. -/
theorem telephony_lookup_failure_degrades_witness :
    (pyStartsWith "sip_31612345678" "sip_" = true) ∧
    (∃ s : Subject,
      resolveIdentity "sip_31612345678" (Except.error "HTTP 500") = Except.ok s ∧
        s.id = "sip_31612345678" ∧ s.name ≠ "") := by
  exact ⟨by decide,
    telephony_lookup_failure_degrades "sip_31612345678" "HTTP 500" (by decide)⟩

/-- C3: a failing memory-store session creation degrades to a null session
identifier, session start still succeeds with that null identifier, and
every subsequent CompanionAgent.on_user_turn_completed call under the null
identifier returns the new message immediately and dispatches no
ingestion. -/
theorem session_creation_failure_disables_ingestion (e userName : String)
    (items : List ChatMessage) (m : ChatMessage) :
    resolveSessionId (Except.error e) = none ∧
    sessionStartAfterCreation (Except.error e) = Except.ok none ∧
    (CompanionAgent.on_user_turn_completed (resolveSessionId (Except.error e))
        userName items m).returned = some m ∧
    (CompanionAgent.on_user_turn_completed (resolveSessionId (Except.error e))
        userName items m).ingested = none := by
  exact ⟨rfl, rfl, rfl, rfl⟩

/-- C7: delete_scheduled_task issues a delete call only for an id contained
in the caller's own re-fetched and filtered workflow list; when the target
id is absent from that filtered list it returns the user-facing "not found"
message and issues zero delete calls. -/
theorem delete_scheduled_task_ownership (participant_identity workflow_id : String)
    (workflows : List Workflow) :
    (workflow_id ∉ (get_user_workflows participant_identity workflows).map Workflow.id →
      (delete_scheduled_task participant_identity workflows workflow_id).message =
          notFoundMessage ∧
      (delete_scheduled_task participant_identity workflows workflow_id).deleted = []) ∧
    (∀ d, d ∈ (delete_scheduled_task participant_identity workflows workflow_id).deleted →
      d = workflow_id ∧
        workflow_id ∈ (get_user_workflows participant_identity workflows).map Workflow.id) := by
  constructor
  · intro hmem
    simp [delete_scheduled_task, hmem]
  · intro d hd
    by_cases hmem :
        workflow_id ∈ (get_user_workflows participant_identity workflows).map Workflow.id
    · simp [delete_scheduled_task, hmem] at hd
      exact ⟨hd, hmem⟩
    · simp [delete_scheduled_task, hmem] at hd

/-- C7 witness: the ownership refusal applied at a concrete caller, an
empty workflow collection and a concrete target id. -/
theorem delete_scheduled_task_ownership_witness :
    ("w9" ∉ (get_user_workflows "user-a" []).map Workflow.id) ∧
    (delete_scheduled_task "user-a" [] "w9").message = notFoundMessage ∧
    (delete_scheduled_task "user-a" [] "w9").deleted = [] := by
  have h := (delete_scheduled_task_ownership "user-a" "w9" []).1 (by decide)
  exact ⟨by decide, h.1, h.2⟩

/-- C8 counterexample: the legacy Companion.web_search (src/main.py) issues
the "web_search" client RPC even for a telephony-originated caller whose
identity starts with "sip_", contradicting the claim that no client RPC is
issued for such callers. -/
theorem companion_websearch_rpc_for_sip :
    (pyStartsWith "sip_31698765432" "sip_" = true) ∧
    (Companion.web_search "sip_31698765432" "zoekresultaat" "rpc-uitvoer").rpcPayloads =
      ["zoekresultaat"] ∧
    (["zoekresultaat"] ≠ ([] : List String)) := by
  exact ⟨by decide, rfl, by decide⟩

/-- C8 (amended): CompanionAgent.web_search issues no client RPC for a
telephony caller and returns the search result directly, forwards the
result via the "web_search" RPC exactly for non-telephony callers, while
the legacy Companion.web_search always forwards via the RPC regardless of
the caller identity. -/
theorem companionagent_websearch_telephony (p json_data rpcResult : String) :
    (pyStartsWith p "sip_" = true →
      CompanionAgent.web_search p json_data rpcResult = ⟨[], json_data⟩) ∧
    (pyStartsWith p "sip_" = false →
      CompanionAgent.web_search p json_data rpcResult = ⟨[json_data], rpcResult⟩) ∧
    Companion.web_search p json_data rpcResult = ⟨[json_data], rpcResult⟩ := by
  refine ⟨?_, ?_, rfl⟩ <;> intro h <;> simp [CompanionAgent.web_search, h]

/-- C8 witness: the telephony branch of the amended statement at a concrete
sip-prefixed identity. -/
theorem companionagent_websearch_telephony_witness :
    (pyStartsWith "sip_1" "sip_" = true) ∧
    CompanionAgent.web_search "sip_1" "data" "rpc" = ⟨[], "data"⟩ := by
  exact ⟨by decide,
    (companionagent_websearch_telephony "sip_1" "data" "rpc").1 (by decide)⟩

/-- A workflow whose single node embeds, in its serialized parameters, only
the longer of the two caller identifiers "user1" and "user12" ("user1"
occurs there only as a proper substring of "user12"). -/
def collidingWorkflow : Workflow :=
  ⟨"wf-long", [⟨some "\"phoneNumber\": \"+311234\", \"userId\": \"user12\""⟩]⟩

/-- C9: membership in get_user_workflows is substring containment over the
serialized node parameters, so the distinct identifiers "user1" and
"user12" — one a substring of the other — collide: a workflow embedding
only "user12" is included in the filtered list of caller "user1", and the
ownership check of delete_scheduled_task therefore accepts a delete of it
by "user1". -/
theorem get_user_workflows_substring_collision :
    ("user1" ≠ "user12") ∧
    strContains "user12" "user1" = true ∧
    get_user_workflows "user12" [collidingWorkflow] = [collidingWorkflow] ∧
    get_user_workflows "user1" [collidingWorkflow] = [collidingWorkflow] ∧
    (delete_scheduled_task "user1" [collidingWorkflow] "wf-long").deleted =
      ["wf-long"] := by
  exact ⟨by decide, by decide, by decide, by decide, by decide⟩

/-- C10: the filtered list produced by get_user_workflows is a sublist of
the collection returned by the service — so the relative order of the
matched workflows is preserved — and when the service collection lists each
workflow at most once (no duplicates), the result also contains each
workflow at most once, however many of its nodes match the caller
identifier. -/
theorem get_user_workflows_at_most_once_ordered (user_id : String)
    (workflows : List Workflow) :
    List.Sublist (get_user_workflows user_id workflows) workflows ∧
    (workflows.Nodup → (get_user_workflows user_id workflows).Nodup) := by
  refine ⟨List.filter_sublist workflows, fun h => ?_⟩
  exact h.sublist (List.filter_sublist workflows)

/-- C10 witness: a collection with one workflow whose two distinct nodes
both match the caller keeps the workflow exactly once, in order. -/
theorem get_user_workflows_at_most_once_ordered_witness :
    ([⟨"wf1", [⟨some "id=u1"⟩, ⟨some "call u1 now"⟩]⟩] : List Workflow).Nodup ∧
    (get_user_workflows "u1"
        [⟨"wf1", [⟨some "id=u1"⟩, ⟨some "call u1 now"⟩]⟩]).Nodup := by
  refine ⟨by decide, ?_⟩
  exact (get_user_workflows_at_most_once_ordered "u1"
    [⟨"wf1", [⟨some "id=u1"⟩, ⟨some "call u1 now"⟩]⟩]).2 (by decide)
